import Mathlib

/-!
Verification of the LINE SavePhoto bot (repository `line-savephoto-bot`).

The repository contains four near-duplicate Node.js scripts:
  * `src/server.js`              - the main variant (namespace `Srv` below);
  * `src/unnamed/part_000`       - a variant whose helper functions
    (`makeFileName`, `getGroupOrRoomName`, `getSourceFolder`) are embedded in
    namespace `Variants`; `src/unnamed/part_001` and the first script inside
    `src/unnamed/part_002` contain textually identical copies of those helpers;
  * the first script in `src/unnamed/part_002` - its webhook handler is
    embedded in namespace `Var2a`;
  * the second script in `src/unnamed/part_002` - its `makeFileName` is
    embedded in namespace `Var2b`.

JavaScript-specific behaviour (truthiness of strings, `x || y` defaulting,
`String.prototype.slice(-6)`, `\s+` collapsing, `padStart(2, "0")`) is
modelled explicitly by the `js*` helpers.  External I/O (the LINE Messaging
API, the content stream and the file system) is modelled by explicit oracles
in an `Env` structure and by the `ContentStream` value; the webhook handlers
are embedded as pure state-passing functions that return the list of
attempted side effects (`Action`) in program order.
-/

/-- JavaScript truthiness of an optional string: `undefined` and `""` are
falsy, every other string is truthy. -/
def jsTruthy : Option String → Bool
  | some s => !(s == "")
  | none => false

/-- JavaScript `a || d` where `a` is an optional string and `d` a string
default: returns `d` when `a` is `undefined` or `""`. -/
def jsOrStr (a : Option String) (d : String) : String :=
  match a with
  | some s => if s == "" then d else s
  | none => d

/-- JavaScript `a || b` on two optional strings (`""` and `undefined` falsy). -/
def jsOrOpt (a b : Option String) : Option String :=
  if jsTruthy a then a else b

/-- JavaScript template interpolation of a possibly-undefined string
(`undefined` renders as "undefined"). -/
def jsTemplate : Option String → String
  | some s => s
  | none => "undefined"

/-- JavaScript `s.slice(-6)`: the last six characters of `s` (all of `s` when
it is shorter). -/
def sliceLast6 (s : String) : String :=
  String.mk (s.data.drop (s.data.length - 6))

/-- ASCII lower-casing, as `String.prototype.toLowerCase` behaves on the
ASCII content-type strings the code inspects. -/
def jsToLowerCase (s : String) : String :=
  String.mk (s.data.map Char.toLower)

/-- Substring test, as `String.prototype.includes`. -/
def hasSubList : List Char → List Char → Bool
  | [], sub => sub.isEmpty
  | c :: t, sub => List.isPrefixOf sub (c :: t) || hasSubList t sub

/-- `s.includes sub` on strings. -/
def strIncludes (s sub : String) : Bool :=
  hasSubList s.data sub.data

/-- The characters removed by `sanitizeFolderName`:
`\ / : * ? " < > |` (the regex `[\\/:*?"<>|]`). -/
def illegalChars : List Char := ['\\', '/', ':', '*', '?', '"', '<', '>', '|']

def isIllegalChar (c : Char) : Bool := illegalChars.contains c

/-- The JavaScript `\s` character class (whitespace used by `\s+` and by
`String.prototype.trim`). -/
def jsWsChars : List Char :=
  [' ', '\t', '\n', '\x0B', '\x0C', '\r', ' ', ' ',
   ' ', ' ', ' ', ' ', ' ', ' ', ' ',
   ' ', ' ', ' ', ' ', ' ', ' ', ' ',
   ' ', '　', '﻿']

def isJsWs (c : Char) : Bool := jsWsChars.contains c

/-- `.replace(/[\\/:*?"<>|]/g, "_")` on the character list. -/
def replaceIllegal (l : List Char) : List Char :=
  l.map (fun c => if isIllegalChar c then '_' else c)

/-- `.replace(/\s+/g, " ")`: every maximal run of whitespace becomes one
space.  The boolean argument records whether the previous character was
part of a whitespace run. -/
def collapseWsAux : Bool → List Char → List Char
  | _, [] => []
  | prevWs, c :: rest =>
    if isJsWs c then
      (if prevWs then [] else [' ']) ++ collapseWsAux true rest
    else
      c :: collapseWsAux false rest

def collapseWs (l : List Char) : List Char := collapseWsAux false l

/-- `String.prototype.trim` on the character list. -/
def trimList (l : List Char) : List Char :=
  ((l.dropWhile isJsWs).reverse.dropWhile isJsWs).reverse

/-- `sanitizeFolderName` from `src/server.js` lines 63-69 (identical in the
other variants): replace the illegal characters with `_`, collapse
whitespace, trim, and keep at most the first 80 characters.  The JavaScript
`String(name || "")` wrapper is the identity on the string inputs this
function receives. -/
def sanitizeFolderName (name : String) : String :=
  String.mk ((trimList (collapseWs (replaceIllegal name.data))).take 80)

-- Basic facts feeding the sanitizer theorem.

theorem mem_replaceIllegal_not_illegal {c : Char} {l : List Char}
    (h : c ∈ replaceIllegal l) : isIllegalChar c = false := by
  simp only [replaceIllegal, List.mem_map] at h
  obtain ⟨a, _, ha⟩ := h
  cases hi : isIllegalChar a with
  | true => simp [hi] at ha; subst ha; decide
  | false => simp [hi] at ha; subst ha; exact hi

theorem mem_collapseWsAux {c : Char} :
    ∀ (b : Bool) (l : List Char), c ∈ collapseWsAux b l → c = ' ' ∨ c ∈ l := by
  intro b l
  induction l generalizing b with
  | nil => intro h; simp [collapseWsAux] at h
  | cons a t ih =>
    intro h
    simp only [collapseWsAux] at h
    by_cases hw : isJsWs a = true
    · simp [hw] at h
      rcases h with h | h
      · rcases b with _ | _ <;> simp_all
      · rcases ih true h with h' | h'
        · exact Or.inl h'
        · exact Or.inr (List.mem_cons_of_mem _ h')
    · simp [hw] at h
      rcases h with h | h
      · exact Or.inr (by simp [h])
      · rcases ih false h with h' | h'
        · exact Or.inl h'
        · exact Or.inr (List.mem_cons_of_mem _ h')

theorem mem_trimList {c : Char} {l : List Char} (h : c ∈ trimList l) :
    c ∈ l := by
  simp only [trimList, List.mem_reverse] at h
  have h1 := List.dropWhile_sublist (p := isJsWs)
      (l := (l.dropWhile isJsWs).reverse)
  have h2 : c ∈ (l.dropWhile isJsWs).reverse := h1.subset h
  rw [List.mem_reverse] at h2
  exact (List.dropWhile_sublist (p := isJsWs) (l := l)).subset h2

/-- Claim C5: for every input string, `sanitizeFolderName` returns a string
containing none of the characters `\ / : * ? " < > |`, and of length at
most 80 characters. -/
theorem c5_sanitize_safe (s : String) :
    ((sanitizeFolderName s).data.all (fun c => !(isIllegalChar c))) = true ∧
    (sanitizeFolderName s).length ≤ 80 := by
  constructor
  · rw [List.all_eq_true]
    intro c hc
    have hc' : c ∈ (sanitizeFolderName s).data := by simpa using hc
    simp only [sanitizeFolderName] at hc'
    have h1 : c ∈ trimList (collapseWs (replaceIllegal s.data)) :=
      List.take_subset _ _ hc'
    have h2 : c ∈ collapseWs (replaceIllegal s.data) := mem_trimList h1
    rcases mem_collapseWsAux false _ h2 with h3 | h3
    · subst h3; decide
    · simp [mem_replaceIllegal_not_illegal h3]
  · show (sanitizeFolderName s).data.length ≤ 80
    simp only [sanitizeFolderName]
    exact le_trans (List.length_take_le _ _) (le_refl 80)

/-! ## Date, file names -/

/-- `pad` from `src/server.js` lines 50-52: `String(n).padStart(2, "0")`
(the decimal rendering of a natural number is never empty, so one
conditional prepend realises `padStart(2, "0")`). -/
def pad (n : Nat) : String :=
  let s := toString n
  if s.length < 2 then "0" ++ s else s

/-- The components of a JavaScript `Date` value that the code reads.
`getMonth` is 0-based, exactly as in JavaScript. -/
structure JsDate where
  getFullYear : Nat
  getMonth : Nat
  getDate : Nat
  getHours : Nat
  getMinutes : Nat
  getSeconds : Nat
deriving DecidableEq

namespace Srv

/-- `makeFileName` from `src/server.js` lines 54-61:
`YYYY-MM-DD_HH-mm-ss_messageId.ext`.  The wall clock read by `new Date()`
is passed explicitly. -/
def makeFileName (d : JsDate) (messageId : String) (ext : String) : String :=
  toString d.getFullYear ++ "-" ++ pad (d.getMonth + 1) ++ "-" ++ pad d.getDate
    ++ "_" ++ pad d.getHours ++ "-" ++ pad d.getMinutes ++ "-" ++ pad d.getSeconds
    ++ "_" ++ messageId ++ "." ++ ext

end Srv

namespace Variants

/-- `makeFileName` from `src/unnamed/part_000` lines 37-44, textually
identical in `src/unnamed/part_001` and in the first script of
`src/unnamed/part_002`: fixed `.jpg` extension, no extension parameter. -/
def makeFileName (d : JsDate) (messageId : String) : String :=
  toString d.getFullYear ++ "-" ++ pad (d.getMonth + 1) ++ "-" ++ pad d.getDate
    ++ "_" ++ pad d.getHours ++ "-" ++ pad d.getMinutes ++ "-" ++ pad d.getSeconds
    ++ "_" ++ messageId ++ ".jpg"

end Variants

namespace Var2b

/-- `makeFileName` from the second script of `src/unnamed/part_002`
(lines 277-282): `YYYY-MM-DD_messageId.ext`, with **no time component**. -/
def makeFileName (d : JsDate) (messageId : String) (ext : String) : String :=
  toString d.getFullYear ++ "-" ++ pad (d.getMonth + 1) ++ "-" ++
    pad d.getDate ++ "_" ++ messageId ++ "." ++ ext

end Var2b

/-- Modelled from the spec: the `{date}` component, `YYYY-MM-DD` with
zero-padded month and day. -/
def specDateStr (d : JsDate) : String :=
  toString d.getFullYear ++ "-" ++ pad (d.getMonth + 1) ++ "-" ++ pad d.getDate

/-- Modelled from the spec: the `{time}` component, `HH-mm-ss` with
zero-padded fields. -/
def specTimeStr (d : JsDate) : String :=
  pad d.getHours ++ "-" ++ pad d.getMinutes ++ "-" ++ pad d.getSeconds

/-! ## The content stream and `saveStreamToFile` -/

/-- Model of the stream returned by `client.getMessageContent`: the
content-type header, the full remote content, and the failure behaviour of
the transport.  When `streamError = some e` the stream emits `delivered`
bytes of the content and then fires an `error` event carrying `e`; when
`streamError = none` it emits the whole content and ends, and the piped
write stream fires `finish`. -/
structure ContentStream where
  contentType : Option String
  content : List Nat
  delivered : Nat
  streamError : Option String
deriving DecidableEq

/-- `saveStreamToFile` from `src/server.js` lines 71-79 (identical in all
variants): the returned promise resolves when the write stream fires
`finish` and rejects with the underlying error when either the source
stream or the write stream fires `error`. -/
def saveStreamToFile (s : ContentStream) : Except String Unit :=
  match s.streamError with
  | none => Except.ok ()
  | some e => Except.error e

/-- The bytes present at the destination path after `saveStreamToFile`
returns: everything that was piped before the stream ended or errored. -/
def fileAfterSave (s : ContentStream) : List Nat :=
  match s.streamError with
  | none => s.content
  | some _ => s.content.take s.delivered

/-! ## Name cache -/

structure CacheEntry where
  name : String
  ts : Nat
deriving DecidableEq

/-- The module-global `nameCache` `Map`; association list keyed by the
cache key string. -/
abbrev NameCache := List (String × CacheEntry)

def cacheGet (c : NameCache) (k : String) : Option CacheEntry :=
  (c.find? (fun p => p.1 == k)).map (fun p => p.2)

/-- `Map.prototype.set`: the new binding shadows any previous one. -/
def cacheSet (c : NameCache) (k : String) (e : CacheEntry) : NameCache :=
  (k, e) :: c.filter (fun p => !(p.1 == k))

def cacheRemove (c : NameCache) (k : String) : NameCache :=
  c.filter (fun p => !(p.1 == k))

/-- `CACHE_TTL_MS = 24 * 60 * 60 * 1000` (`src/server.js` line 89). -/
def CACHE_TTL_MS : Nat := 24 * 60 * 60 * 1000

/-! ## Events and the environment -/

/-- A LINE event source object (`event.source`); every field may be absent. -/
structure Source where
  type : Option String := none
  userId : Option String := none
  groupId : Option String := none
  roomId : Option String := none
deriving DecidableEq

/-- `event.message` for message events. -/
structure MessageObj where
  type : String
  id : String
deriving DecidableEq

/-- A webhook event as the handlers read it. -/
structure Event where
  type : String
  message : Option MessageObj := none
  source : Option Source := none
  replyToken : Option String := none
deriving DecidableEq

/-- `event.source?.type`. -/
def srcTypeOf (ev : Event) : Option String :=
  ev.source.bind (fun s => s.type)

structure GroupSummary where
  groupName : Option String
deriving DecidableEq

structure RoomSummary where
  roomName : Option String
deriving DecidableEq

/-- The environment: configuration read from `process.env`, the request
headers used by `buildPublicBaseUrl`, oracles for the LINE API calls
(`replyFail t = some e` means `replyMessage` with token `t` rejects with
`e`; likewise `pushFail`), and the wall clock. -/
structure Env where
  adminUserId : String
  imageViewToken : String
  xfProto : Option String
  xfHost : Option String
  hostHeader : Option String
  getGroupSummary : String → Except String GroupSummary
  getRoomSummary : String → Except String RoomSummary
  getMessageContent : String → Except String ContentStream
  replyFail : String → Option String
  pushFail : String → Option String
  date : JsDate
  now : Nat

/-- An attempted side effect, recorded in program order.  `reply` and
`push` are recorded when the corresponding API call is issued, whether or
not it succeeds; `saveFile` is recorded when the write completes. -/
inductive Act where
  | reply (token : Option String) (text : String)
  | push (target : String) (text : String)
  | saveFile (folder : String) (file : String) (bytes : List Nat)
  | log (msg : String)
deriving DecidableEq

def isPushTo (dst : String) : Act → Bool
  | Act.push t _ => t == dst
  | _ => false

def isSaveAct : Act → Bool
  | Act.saveFile _ _ _ => true
  | _ => false

def isReplyAct : Act → Bool
  | Act.reply _ _ => true
  | _ => false

/-- Whether an attempted send is addressed to the group or room
conversation of the originating event: a reply goes to the conversation
the event came from, and a push is addressed to a group/room when its
target is the event's group or room identifier. -/
def sendsToGroupOrRoom (ev : Event) : Act → Bool
  | Act.reply _ _ =>
      (srcTypeOf ev == some "group") || (srcTypeOf ev == some "room")
  | Act.push dst _ =>
      (ev.source.bind (fun s => s.groupId) == some dst)
        || (ev.source.bind (fun s => s.roomId) == some dst)
  | _ => false

/-- The in-memory state shared by the `src/server.js` webhook handler:
the name cache, the `seenMessageIds` set and the pending `setTimeout`
deletions (message id, absolute firing time). -/
structure BotState where
  cache : NameCache
  seen : List String
  timers : List (String × Nat)
deriving DecidableEq

/-- `rememberMessageId` from `src/server.js` lines 137-140: add the id to
the set and schedule its deletion `10 * 60 * 1000` ms later. -/
def rememberMessageId (id : String) (now : Nat) (st : BotState) : BotState :=
  { st with
      seen := id :: st.seen
      timers := (id, now + 10 * 60 * 1000) :: st.timers }

/-- Firing the scheduled timer for `id`: `seenMessageIds.delete(id)`. -/
def fireTimer (id : String) (st : BotState) : BotState :=
  { st with
      seen := st.seen.filter (fun x => !(x == id))
      timers := st.timers.filter (fun p => !(p.1 == id)) }

/-! ## encodeURIComponent -/

def hexDigitChar (n : Nat) : Char :=
  if n < 10 then Char.ofNat (48 + n) else Char.ofNat (55 + n)

def percentByte (b : Nat) : List Char :=
  ['%', hexDigitChar (b / 16), hexDigitChar (b % 16)]

/-- UTF-8 encoding of a code point. -/
def utf8Bytes (n : Nat) : List Nat :=
  if n < 128 then [n]
  else if n < 2048 then [192 + n / 64, 128 + n % 64]
  else if n < 65536 then [224 + n / 4096, 128 + (n / 64) % 64, 128 + n % 64]
  else [240 + n / 262144, 128 + (n / 4096) % 64, 128 + (n / 64) % 64,
        128 + n % 64]

/-- The characters `encodeURIComponent` leaves unescaped:
`A-Z a-z 0-9 - _ . ! ~ * ' ( )`. -/
def isUriUnreserved (c : Char) : Bool :=
  let n := c.toNat
  decide (65 ≤ n ∧ n ≤ 90) || decide (97 ≤ n ∧ n ≤ 122)
    || decide (48 ≤ n ∧ n ≤ 57)
    || c == '-' || c == '_' || c == '.' || c == '!' || c == '~' || c == '*'
    || c == '\'' || c == '(' || c == ')'

/-- JavaScript `encodeURIComponent`: unreserved characters pass through,
everything else is percent-encoded per UTF-8 byte. -/
def encodeURIComponent (s : String) : String :=
  String.mk (s.data.foldr
    (fun c acc =>
      (if isUriUnreserved c then [c]
       else (utf8Bytes c.toNat).foldr (fun b a => percentByte b ++ a) [])
        ++ acc)
    [])

/-! ## `src/server.js` -/

namespace Srv

/-- `buildPublicBaseUrl` from `src/server.js` lines 81-85:
`(x-forwarded-proto || "https") + "://" + (x-forwarded-host || host)`. -/
def buildPublicBaseUrl (env : Env) : String :=
  jsTemplate (jsOrOpt env.xfProto (some "https")) ++ "://"
    ++ jsTemplate (jsOrOpt env.xfHost env.hostHeader)

/-- `sourceText` from `src/server.js` lines 127-133. -/
def sourceText (ev : Event) : String :=
  let src := ev.source.getD {}
  if src.type = some "user" then
    "PRIVATE (" ++ jsOrStr (src.userId.map sliceLast6) "" ++ ")"
  else if src.type = some "group" then
    "GROUP (" ++ jsOrStr (src.groupId.map sliceLast6) "" ++ ")"
  else if src.type = some "room" then
    "ROOM (" ++ jsOrStr (src.roomId.map sliceLast6) "" ++ ")"
  else "UNKNOWN"

/-- `getGroupName` from `src/server.js` lines 91-100.  Returns the result
of the call (the resolved name and the updated cache, or the error the
call rejects with) together with the number of `getGroupSummary` API
calls performed (0 or 1). -/
def getGroupName (env : Env) (cache : NameCache) (groupId : String) :
    Except String (String × NameCache) × Nat :=
  let key := "group:" ++ groupId
  let hit : Option String :=
    match cacheGet cache key with
    | some cached =>
        if env.now - cached.ts < CACHE_TTL_MS then some cached.name else none
    | none => none
  match hit with
  | some n => (Except.ok (n, cache), 0)
  | none =>
    match env.getGroupSummary groupId with
    | Except.error e => (Except.error e, 1)
    | Except.ok summary =>
        let name := sanitizeFolderName (jsOrStr summary.groupName "UnknownGroup")
        (Except.ok (name, cacheSet cache key { name := name, ts := env.now }), 1)

/-- `getSourceFolder` from `src/server.js` lines 103-125.  Total: the
`try`/`catch` around `getGroupName` means a lookup failure degrades to
`group_{last-6-of-id}` instead of raising; rooms never call the API.
Returns the folder name, the updated cache and the API call count. -/
def getSourceFolder (env : Env) (cache : NameCache) (ev : Event) :
    String × NameCache × Nat :=
  let src := ev.source.getD {}
  if src.type = some "user" then ("private", cache, 0)
  else if src.type = some "group" ∧ jsTruthy src.groupId = true then
    let gid := src.groupId.getD ""
    let tail := sliceLast6 gid
    match getGroupName env cache gid with
    | (Except.ok (name, cache'), k) => ("group_" ++ name ++ "_" ++ tail, cache', k)
    | (Except.error _, k) => ("group_" ++ tail, cache, k)
  else if src.type = some "room" ∧ jsTruthy src.roomId = true then
    ("room_" ++ sliceLast6 (src.roomId.getD ""), cache, 0)
  else ("unknown", cache, 0)

def welcomeText : String := "สวัสดีครับ 🙂 SavePhotoBot พร้อมรับรูปแล้ว"
def ackText : String := "✅ รับทราบครับ ส่งรูปมาได้เลย"
def savedText : String := "✅ บันทึกรูปแล้วครับ"

/-- Result of running the body of the per-event `try` block: the state
after the event, the attempted side effects in program order, the number
of metadata-API calls, and the error the body threw (`none` when it ran
to completion). -/
structure HRes where
  st : BotState
  acts : List Act
  api : Nat
  err : Option String
deriving DecidableEq

/-- The body of the per-event `try` block of the `src/server.js` webhook
handler (lines 150-247): follow/text replies only for private sources,
join silent, image messages deduplicated, saved and pushed to the
administrator. -/
def handleEvent (env : Env) (st : BotState) (ev : Event) : HRes :=
  let srcType := srcTypeOf ev
  if ev.type = "follow" then
    if srcType = some "user" ∧ jsTruthy ev.replyToken = true then
      let tok := ev.replyToken.getD ""
      { st := st, acts := [Act.reply ev.replyToken welcomeText], api := 0,
        err := env.replyFail tok }
    else { st := st, acts := [], api := 0, err := none }
  else if ev.type = "join" then
    { st := st, acts := [], api := 0, err := none }
  else if ev.type = "message" ∧ ev.message.map (fun m => m.type) = some "text" then
    if srcType = some "user" ∧ jsTruthy ev.replyToken = true then
      let tok := ev.replyToken.getD ""
      { st := st, acts := [Act.reply ev.replyToken ackText], api := 0,
        err := env.replyFail tok }
    else { st := st, acts := [], api := 0, err := none }
  else if ev.type = "message" ∧ ev.message.map (fun m => m.type) = some "image" then
    let messageId := (ev.message.map (fun m => m.id)).getD ""
    if messageId ∈ st.seen then
      { st := st,
        acts := [Act.log ("⚠️ Duplicate messageId ignored: " ++ messageId)],
        api := 0, err := none }
    else
      let st1 := rememberMessageId messageId env.now st
      match getSourceFolder env st1.cache ev with
      | (folderName, cache', api1) =>
        let st2 := { st1 with cache := cache' }
        match env.getMessageContent messageId with
        | Except.error e => { st := st2, acts := [], api := api1, err := some e }
        | Except.ok stream =>
          let ct := jsToLowerCase (jsOrStr stream.contentType "")
          let ext :=
            if strIncludes ct "png" then "png"
            else if strIncludes ct "jpeg" then "jpg"
            else if strIncludes ct "jpg" then "jpg"
            else if strIncludes ct "webp" then "webp"
            else "jpg"
          let fileName := makeFileName env.date messageId ext
          match saveStreamToFile stream with
          | Except.error e => { st := st2, acts := [], api := api1, err := some e }
          | Except.ok _ =>
            let acts1 := [Act.saveFile folderName fileName (fileAfterSave stream),
                          Act.log ("✅ Image saved: " ++ folderName ++ "/" ++ fileName)]
            let baseUrl := buildPublicBaseUrl env
            let viewPath := "/images/" ++ encodeURIComponent folderName ++ "/"
                              ++ encodeURIComponent fileName
            let viewUrl :=
              if env.imageViewToken = "" then baseUrl ++ viewPath
              else baseUrl ++ viewPath ++ "?token="
                     ++ encodeURIComponent env.imageViewToken
            let msg := "📸 มีรูปถูกส่งเข้ามา\n"
              ++ "ที่: " ++ sourceText ev ++ "\n"
              ++ "ผู้ส่ง: " ++ jsOrStr (ev.source.bind (fun s => s.userId)) "-" ++ "\n"
              ++ "โฟลเดอร์: " ++ folderName ++ "\n"
              ++ "ไฟล์: " ++ fileName ++ "\n"
              ++ "ดูรูป: " ++ viewUrl
            let acts2 := acts1 ++ [Act.push env.adminUserId msg]
            match env.pushFail env.adminUserId with
            | some e => { st := st2, acts := acts2, api := api1, err := some e }
            | none =>
              if srcType = some "user" ∧ jsTruthy ev.replyToken = true then
                let tok := ev.replyToken.getD ""
                { st := st2, acts := acts2 ++ [Act.reply ev.replyToken savedText],
                  api := api1, err := env.replyFail tok }
              else { st := st2, acts := acts2, api := api1, err := none }
  else { st := st, acts := [], api := 0, err := none }

/-- One iteration of the `for (const event of events)` loop, including the
`catch` (`src/server.js` lines 248-255): a thrown error is logged and a
best-effort error push to the administrator is attempted (its own failure
is swallowed by the inner `try`). -/
def processEvent (env : Env) (st : BotState) (ev : Event) :
    BotState × List Act × Nat :=
  let r := handleEvent env st ev
  match r.err with
  | none => (r.st, r.acts, r.api)
  | some e =>
      (r.st,
       r.acts ++ [Act.log ("❌ Error: " ++ e),
                  Act.push env.adminUserId ("❌ SavePhotoBot Error: " ++ e)],
       r.api)

/-- The whole webhook batch loop: per-event traces in order, threading the
shared state. -/
def webhook (env : Env) : BotState → List Event → BotState × List (List Act)
  | st, [] => (st, [])
  | st, ev :: rest =>
    let r := processEvent env st ev
    let w := webhook env r.1 rest
    (w.1, r.2.1 :: w.2)

end Srv

/-! ## `src/unnamed/part_000` helpers (identical in `part_001` and in the
first script of `part_002`) -/

namespace Variants

/-- `getGroupOrRoomName` from `src/unnamed/part_000` lines 70-96: cache
lookup per kind-prefixed key, remote summary on miss/expiry, `null` when
the source has no usable kind; a rejected API call **propagates**. -/
def getGroupOrRoomName (env : Env) (cache : NameCache) (source : Source) :
    Except String (Option String × NameCache × Nat) :=
  if jsTruthy source.type = false then Except.ok (none, cache, 0)
  else if source.type = some "group" ∧ jsTruthy source.groupId = true then
    let gid := source.groupId.getD ""
    let key := "group:" ++ gid
    let hit : Option String :=
      match cacheGet cache key with
      | some cached =>
          if env.now - cached.ts < CACHE_TTL_MS then some cached.name else none
      | none => none
    match hit with
    | some n => Except.ok (some n, cache, 0)
    | none =>
      match env.getGroupSummary gid with
      | Except.error e => Except.error e
      | Except.ok summary =>
        let name := sanitizeFolderName (jsOrStr summary.groupName "UnknownGroup")
        Except.ok (some name, cacheSet cache key { name := name, ts := env.now }, 1)
  else if source.type = some "room" ∧ jsTruthy source.roomId = true then
    let rid := source.roomId.getD ""
    let key := "room:" ++ rid
    let hit : Option String :=
      match cacheGet cache key with
      | some cached =>
          if env.now - cached.ts < CACHE_TTL_MS then some cached.name else none
      | none => none
    match hit with
    | some n => Except.ok (some n, cache, 0)
    | none =>
      match env.getRoomSummary rid with
      | Except.error e => Except.error e
      | Except.ok summary =>
        let name := sanitizeFolderName (jsOrStr summary.roomName "UnknownRoom")
        Except.ok (some name, cacheSet cache key { name := name, ts := env.now }, 1)
  else Except.ok (none, cache, 0)

/-- `getSourceFolder` from `src/unnamed/part_000` lines 98-116: resolves the
display name first, then composes `{kind}_{name}_{last-6}` when the name is
truthy and `{kind}_{full-id}` otherwise.  A rejected metadata call
propagates out of the function (no `try`/`catch`). -/
def getSourceFolder (env : Env) (cache : NameCache) (ev : Event) :
    Except String (String × NameCache × Nat) :=
  let src := ev.source.getD {}
  if src.type = some "user" then Except.ok ("private", cache, 0)
  else
    match getGroupOrRoomName env cache src with
    | Except.error e => Except.error e
    | Except.ok (name, cache', k) =>
      if src.type = some "group" ∧ jsTruthy src.groupId = true then
        let gid := src.groupId.getD ""
        Except.ok
          ((if jsTruthy name then "group_" ++ name.getD "" ++ "_" ++ sliceLast6 gid
            else "group_" ++ gid), cache', k)
      else if src.type = some "room" ∧ jsTruthy src.roomId = true then
        let rid := src.roomId.getD ""
        Except.ok
          ((if jsTruthy name then "room_" ++ name.getD "" ++ "_" ++ sliceLast6 rid
            else "room_" ++ rid), cache', k)
      else Except.ok ("unknown", cache', k)

end Variants

/-! ## The first script of `src/unnamed/part_002` -/

namespace Var2a

def welcome2a : String := "สวัสดีครับ 🙂 SavePhotoBot พร้อมรับรูปแล้ว ส่งรูปมาได้เลย"
def ack2a : String := "✅ เห็นข้อความแล้วครับ ส่งรูปมาได้เลย"
def receiving2a : String := "📥 รับรูปแล้วครับ กำลังบันทึก..."

/-- Outcome of `client.replyMessage(event.replyToken, ...)`: with an
`undefined` token the API call rejects; otherwise the oracle decides. -/
def replyOutcome (env : Env) : Option String → Option String
  | none => some "invalid reply token"
  | some t => env.replyFail t

/-- Result of the per-event `try` body: the name cache, the attempted side
effects, and the error thrown (if any). -/
structure HRes where
  cache : NameCache
  acts : List Act
  err : Option String
deriving DecidableEq

/-- The tail of the image branch after folder resolution and the optional
immediate reply: fetch the content, save it, then push the confirmation to
`event.source?.userId || event.source?.groupId || event.source?.roomId` -
which is the **group or room identifier** when the sender's user id is
absent (lines 177-192 of the first script in `src/unnamed/part_002`). -/
def imageTail (env : Env) (cache : NameCache) (ev : Event)
    (messageId folderName fileName : String) (acts : List Act) : HRes :=
  match env.getMessageContent messageId with
  | Except.error e => { cache := cache, acts := acts, err := some e }
  | Except.ok stream =>
    match saveStreamToFile stream with
    | Except.error e => { cache := cache, acts := acts, err := some e }
    | Except.ok _ =>
      let acts1 := acts
        ++ [Act.saveFile folderName fileName (fileAfterSave stream),
            Act.log ("✅ Image saved: " ++ folderName ++ "/" ++ fileName)]
      let dst := jsOrOpt (ev.source.bind (fun s => s.userId))
                   (jsOrOpt (ev.source.bind (fun s => s.groupId))
                     (ev.source.bind (fun s => s.roomId)))
      if jsTruthy dst = true then
        let t := dst.getD ""
        let acts2 := acts1
          ++ [Act.push t ("✅ บันทึกรูปเรียบร้อย\nโฟลเดอร์: " ++ folderName
                ++ "\nไฟล์: " ++ fileName)]
        { cache := cache, acts := acts2, err := env.pushFail t }
      else { cache := cache, acts := acts1, err := none }

/-- The body of the per-event `try` block of the webhook handler in the
first script of `src/unnamed/part_002` (lines 138-198): join/follow and
text messages are answered with `replyMessage` for **every** source kind,
and the image branch replies immediately when a reply token is present,
then saves and pushes the confirmation to the originating conversation. -/
def handleEvent (env : Env) (cache : NameCache) (ev : Event) : HRes :=
  if ev.type = "join" ∨ ev.type = "follow" then
    { cache := cache, acts := [Act.reply ev.replyToken welcome2a],
      err := replyOutcome env ev.replyToken }
  else if ev.type = "message" ∧ ev.message.map (fun m => m.type) = some "text" then
    { cache := cache, acts := [Act.reply ev.replyToken ack2a],
      err := replyOutcome env ev.replyToken }
  else if ev.type = "message" ∧ ev.message.map (fun m => m.type) = some "image" then
    let messageId := (ev.message.map (fun m => m.id)).getD ""
    match Variants.getSourceFolder env cache ev with
    | Except.error e => { cache := cache, acts := [], err := some e }
    | Except.ok (folderName, cache', _) =>
      let fileName := Variants.makeFileName env.date messageId
      let acts0 := [Act.log ("📷 Image received: " ++ messageId ++ " -> " ++ folderName)]
      if jsTruthy ev.replyToken = true then
        let tok := ev.replyToken.getD ""
        let acts1 := acts0 ++ [Act.reply ev.replyToken receiving2a]
        match env.replyFail tok with
        | some e => { cache := cache', acts := acts1, err := some e }
        | none => imageTail env cache' ev messageId folderName fileName acts1
      else imageTail env cache' ev messageId folderName fileName acts0
  else { cache := cache, acts := [], err := none }

/-- One loop iteration with the `catch` (which only logs in this variant). -/
def processEvent (env : Env) (cache : NameCache) (ev : Event) :
    NameCache × List Act :=
  let r := handleEvent env cache ev
  match r.err with
  | none => (r.cache, r.acts)
  | some e => (r.cache, r.acts ++ [Act.log ("❌ Error: " ++ e)])

end Var2a

/-! ## The second script of `src/unnamed/part_002` (webhook handler) -/

namespace Var2b

/-- `sourceLabel` from the second script of `src/unnamed/part_002`
(lines 308-314): `(s.xxxId || "").slice(-6)` inside the label. -/
def sourceLabel (ev : Event) : String :=
  let s := ev.source.getD {}
  if s.type = some "group" then "GROUP (" ++ sliceLast6 (jsOrStr s.groupId "") ++ ")"
  else if s.type = some "room" then "ROOM (" ++ sliceLast6 (jsOrStr s.roomId "") ++ ")"
  else if s.type = some "user" then "PRIVATE (" ++ sliceLast6 (jsOrStr s.userId "") ++ ")"
  else "UNKNOWN"

/-- `getGroupName` from the second script of `src/unnamed/part_002`
(lines 320-328): identical to the `src/server.js` version except that the
cache is keyed by the raw `groupId` (no `group:` prefixing).  Returns the
call's result together with the number of `getGroupSummary` calls. -/
def getGroupName (env : Env) (cache : NameCache) (groupId : String) :
    Except String (String × NameCache) × Nat :=
  let hit : Option String :=
    match cacheGet cache groupId with
    | some cached =>
        if env.now - cached.ts < CACHE_TTL_MS then some cached.name else none
    | none => none
  match hit with
  | some n => (Except.ok (n, cache), 0)
  | none =>
    match env.getGroupSummary groupId with
    | Except.error e => (Except.error e, 1)
    | Except.ok summary =>
        let name := sanitizeFolderName (jsOrStr summary.groupName "UnknownGroup")
        (Except.ok (name, cacheSet cache groupId { name := name, ts := env.now }), 1)

/-- `getSourceFolder` from the second script of `src/unnamed/part_002`
(lines 330-352): same structure as the `src/server.js` version - the
`try`/`catch` degrades a failed group lookup to `group_{last-6}`, rooms
never call the API. -/
def getSourceFolder (env : Env) (cache : NameCache) (ev : Event) :
    String × NameCache × Nat :=
  let s := ev.source.getD {}
  if s.type = some "user" then ("private", cache, 0)
  else if s.type = some "group" ∧ jsTruthy s.groupId = true then
    let gid := s.groupId.getD ""
    let tail := sliceLast6 gid
    match getGroupName env cache gid with
    | (Except.ok (name, cache'), k) => ("group_" ++ name ++ "_" ++ tail, cache', k)
    | (Except.error _, k) => ("group_" ++ tail, cache, k)
  else if s.type = some "room" ∧ jsTruthy s.roomId = true then
    ("room_" ++ sliceLast6 (s.roomId.getD ""), cache, 0)
  else ("unknown", cache, 0)

def savedText : String := "✅ บันทึกรูปแล้วครับ"

/-- Result of the per-event `try` body of this script's webhook handler. -/
structure HRes where
  st : BotState
  acts : List Act
  api : Nat
  err : Option String
deriving DecidableEq

/-- The body of the per-event `try` block of the webhook handler in the
second script of `src/unnamed/part_002` (lines 375-445): only image
messages are handled; after dedup, folder resolution, content fetch and
save, a group/room source triggers exactly one `notifyAdmin` push (and
never a reply), while a user source with a reply token gets a short
acknowledgment.  `notifyAdmin text` is `pushMessage(ADMIN_USER_ID, [text])`
(lines 362-365). -/
def handleEvent (env : Env) (st : BotState) (ev : Event) : HRes :=
  if ¬(ev.type = "message" ∧ ev.message.map (fun m => m.type) = some "image") then
    { st := st, acts := [], api := 0, err := none }
  else
    let srcType := srcTypeOf ev
    let messageId := (ev.message.map (fun m => m.id)).getD ""
    if messageId ∈ st.seen then
      { st := st,
        acts := [Act.log ("⚠️ Duplicate message ignored: " ++ messageId)],
        api := 0, err := none }
    else
      let st1 := rememberMessageId messageId env.now st
      match getSourceFolder env st1.cache ev with
      | (folderName, cache', api1) =>
        let st2 := { st1 with cache := cache' }
        match env.getMessageContent messageId with
        | Except.error e => { st := st2, acts := [], api := api1, err := some e }
        | Except.ok stream =>
          let ct := jsToLowerCase (jsOrStr stream.contentType "")
          let ext :=
            if strIncludes ct "png" then "png"
            else if strIncludes ct "jpeg" then "jpg"
            else if strIncludes ct "jpg" then "jpg"
            else if strIncludes ct "webp" then "webp"
            else "jpg"
          let fileName := makeFileName env.date messageId ext
          match saveStreamToFile stream with
          | Except.error e => { st := st2, acts := [], api := api1, err := some e }
          | Except.ok _ =>
            let acts1 := [Act.saveFile folderName fileName (fileAfterSave stream),
                          Act.log ("✅ Saved: " ++ folderName ++ "/" ++ fileName)]
            let baseUrl := Srv.buildPublicBaseUrl env
            let viewPath := "/images/" ++ encodeURIComponent folderName ++ "/"
                              ++ encodeURIComponent fileName
            let viewUrl :=
              if env.imageViewToken = "" then baseUrl ++ viewPath
              else baseUrl ++ viewPath ++ "?token="
                     ++ encodeURIComponent env.imageViewToken
            if srcType = some "group" ∨ srcType = some "room" then
              let msg := "📸 มีรูปถูกส่งเข้ามา\n"
                ++ "ที่: " ++ sourceLabel ev ++ "\n"
                ++ "ผู้ส่ง: " ++ jsOrStr (ev.source.bind (fun s => s.userId)) "-" ++ "\n"
                ++ "โฟลเดอร์: " ++ folderName ++ "\n"
                ++ "ไฟล์: " ++ fileName ++ "\n"
                ++ "ดูรูป: " ++ viewUrl
              { st := st2, acts := acts1 ++ [Act.push env.adminUserId msg],
                api := api1, err := env.pushFail env.adminUserId }
            else
              if srcType = some "user" ∧ jsTruthy ev.replyToken = true then
                { st := st2, acts := acts1 ++ [Act.reply ev.replyToken savedText],
                  api := api1, err := env.replyFail (ev.replyToken.getD "") }
              else { st := st2, acts := acts1, api := api1, err := none }

end Var2b

/-! ## Claim C7: file-name format -/

/-- Claim C7 (counterexample): the `makeFileName` of the second script in
`src/unnamed/part_002` (cited by the claim) omits the time component: at
the fixed clock 2024-01-15T10:30:00 with messageId `"12345"` it produces
`2024-01-15_12345.jpg`, not `2024-01-15_10-30-00_12345.jpg` (nor that name
with another extension), and its output never matches the claimed
`{date}_{time}_{messageId}.{ext}` shape. -/
theorem c7_counterexample :
    Var2b.makeFileName ⟨2024, 0, 15, 10, 30, 0⟩ "12345" "jpg"
        = "2024-01-15_12345.jpg"
      ∧ (Var2b.makeFileName ⟨2024, 0, 15, 10, 30, 0⟩ "12345" "jpg"
          == "2024-01-15_10-30-00_12345.jpg") = false := by
  constructor
  · rfl
  · decide

/-- Claim C7 (amended): `makeFileName` of `src/server.js` (and the
identical helper of `part_000`/`part_001`/the first script of `part_002`)
produces `2024-01-15_10-30-00_12345.jpg` for messageId `"12345"` at the
fixed clock 2024-01-15T10:30:00, and in general
`{date}_{time}_{messageId}.{ext}` with zero-padded components; the second
script of `part_002` instead produces `{date}_{messageId}.{ext}` with no
time component. -/
theorem c7_filename_format :
    (Srv.makeFileName ⟨2024, 0, 15, 10, 30, 0⟩ "12345" "jpg"
        = "2024-01-15_10-30-00_12345.jpg")
    ∧ (∀ (d : JsDate) (mid ext : String),
        Srv.makeFileName d mid ext
          = specDateStr d ++ "_" ++ specTimeStr d ++ "_" ++ mid ++ "." ++ ext)
    ∧ (∀ (d : JsDate) (mid : String),
        Variants.makeFileName d mid
          = specDateStr d ++ "_" ++ specTimeStr d ++ "_" ++ mid ++ ".jpg")
    ∧ (∀ (d : JsDate) (mid ext : String),
        Var2b.makeFileName d mid ext
          = specDateStr d ++ "_" ++ mid ++ "." ++ ext) := by
  refine ⟨by rfl, ?_, ?_, ?_⟩ <;> intros <;>
    simp [Srv.makeFileName, Variants.makeFileName, Var2b.makeFileName,
      specDateStr, specTimeStr, String.append_assoc]

/-! ## Claim C3: save failure behaviour -/

/-- Claim C3: `saveStreamToFile` resolves exactly when the stream ends
cleanly (and then the destination file holds the full content); on a
stream error it rejects with the underlying error, and the destination
file holds a truncated portion of the content - the failure is never
reported as success.  A failed content **fetch** makes the handler throw
before any write, so no file action is recorded at all. -/
theorem c3_save_propagates :
    (∀ s : ContentStream,
        (saveStreamToFile s = Except.ok () ↔ s.streamError = none)
        ∧ (s.streamError = none → fileAfterSave s = s.content)
        ∧ (∀ e, s.streamError = some e →
            saveStreamToFile s = Except.error e
              ∧ fileAfterSave s = s.content.take s.delivered))
    ∧ (∀ (env : Env) (st : BotState) (ev : Event) (m : MessageObj) (e : String),
        ev.type = "message" → ev.message = some m → m.type = "image" →
        ¬ m.id ∈ st.seen →
        env.getMessageContent m.id = Except.error e →
        (Srv.handleEvent env st ev).err = some e
          ∧ (Srv.handleEvent env st ev).acts.all (fun a => !(isSaveAct a)) = true) := by
  constructor
  · intro s
    refine ⟨?_, ?_, ?_⟩
    · cases h : s.streamError <;> simp [saveStreamToFile, h]
    · intro h; simp [fileAfterSave, h]
    · intro e h; simp [saveStreamToFile, fileAfterSave, h]
  · intro env st ev m e h1 h2 h3 h4 h5
    rcases hsf : Srv.getSourceFolder env (rememberMessageId m.id env.now st).cache ev
      with ⟨f, c2, k⟩
    constructor <;> simp [Srv.handleEvent, h1, h2, h3, h4, h5, hsf]

def wEnvFetchFail : Env :=
  { adminUserId := "Uadmin", imageViewToken := "",
    xfProto := none, xfHost := none, hostHeader := some "example.test",
    getGroupSummary := fun _ => Except.error "down",
    getRoomSummary := fun _ => Except.error "down",
    getMessageContent := fun _ => Except.error "boom",
    replyFail := fun _ => none, pushFail := fun _ => none,
    date := ⟨2024, 0, 15, 10, 30, 0⟩, now := 0 }

def wStEmpty : BotState := { cache := [], seen := [], timers := [] }

def wEvGroupImage : Event :=
  { type := "message", message := some { type := "image", id := "m1" },
    source := some { type := some "group", userId := none,
                     groupId := some "C0000abcdef", roomId := none },
    replyToken := some "rt1" }

def wStreamErr : ContentStream :=
  { contentType := none, content := [1, 2, 3, 4], delivered := 2,
    streamError := some "ECONNRESET" }

/-- Witness for C3: a stream that errors after two of four bytes makes the
save reject with that error and leaves the two-byte truncation; a failing
content fetch surfaces as the handler's thrown error. -/
theorem c3_witness :
    (saveStreamToFile wStreamErr = Except.error "ECONNRESET"
      ∧ fileAfterSave wStreamErr = List.take 2 [1, 2, 3, 4])
    ∧ (Srv.handleEvent wEnvFetchFail wStEmpty wEvGroupImage).err = some "boom" :=
  ⟨(c3_save_propagates.1 wStreamErr).2.2 "ECONNRESET" rfl,
   (c3_save_propagates.2 wEnvFetchFail wStEmpty wEvGroupImage
      { type := "image", id := "m1" } "boom" rfl rfl rfl (by decide) rfl).1⟩

/-! ## Claim C6: cache idempotence -/

theorem cacheGet_set (c : NameCache) (k : String) (e : CacheEntry) :
    cacheGet (cacheSet c k e) k = some e := by
  simp [cacheGet, cacheSet, List.find?_cons]

theorem cacheGet_remove (c : NameCache) (k : String) :
    cacheGet (cacheRemove c k) k = none := by
  unfold cacheGet cacheRemove
  rw [List.find?_eq_none.mpr]
  · rfl
  · intro x hx
    have h2 := (List.mem_filter.mp hx).2
    simp at h2 ⊢
    exact h2

theorem cacheSet_remove (c : NameCache) (k : String) (e : CacheEntry) :
    cacheSet (cacheRemove c k) k e = cacheSet c k e := by
  simp only [cacheSet, cacheRemove, List.filter_filter]
  congr 1
  apply List.filter_congr
  intro x _
  cases h : (x.1 == k) <;> simp [h]

/-- Claim C6: (a) after a successful resolution for a group, any second
resolution performed while the resulting cache entry is still within the
24-hour TTL returns the same name, leaves the cache untouched and performs
no metadata-API call, regardless of what the API would now answer;
(b) a cache entry is honoured exactly while `now - ts < CACHE_TTL_MS`:
within the TTL the entry's name is returned with no API call, and once
expired `getGroupName` behaves exactly as if the entry were absent. -/
theorem c6_cache_idempotent :
    (∀ (env1 env2 : Env) (c : NameCache) (gid n : String) (c2 : NameCache)
        (k : Nat) (e' : CacheEntry),
        Srv.getGroupName env1 c gid = (Except.ok (n, c2), k) →
        cacheGet c2 ("group:" ++ gid) = some e' →
        env2.now - e'.ts < CACHE_TTL_MS →
        Srv.getGroupName env2 c2 gid = (Except.ok (n, c2), 0))
    ∧ (∀ (env : Env) (c : NameCache) (gid : String) (e' : CacheEntry),
        cacheGet c ("group:" ++ gid) = some e' →
        (env.now - e'.ts < CACHE_TTL_MS →
            Srv.getGroupName env c gid = (Except.ok (e'.name, c), 0))
        ∧ (¬ env.now - e'.ts < CACHE_TTL_MS →
            Srv.getGroupName env c gid
              = Srv.getGroupName env (cacheRemove c ("group:" ++ gid)) gid)) := by
  constructor
  · intro env1 env2 c gid n c2 k e' h1 h2 h3
    have hname : e'.name = n := by
      rcases hget : cacheGet c ("group:" ++ gid) with _ | cached
      · rcases hapi : env1.getGroupSummary gid with e0 | summary
        · simp [Srv.getGroupName, hget, hapi] at h1
        · simp [Srv.getGroupName, hget, hapi] at h1
          rw [← h1.1.2] at h2
          rw [cacheGet_set] at h2
          rw [← h1.1.1]
          cases h2
          rfl
      · by_cases httl : env1.now - cached.ts < CACHE_TTL_MS
        · simp [Srv.getGroupName, hget, httl] at h1
          rw [← h1.1.2] at h2
          rw [hget] at h2
          cases h2
          exact h1.1.1
        · rcases hapi : env1.getGroupSummary gid with e0 | summary
          · simp [Srv.getGroupName, hget, httl, hapi] at h1
          · simp [Srv.getGroupName, hget, httl, hapi] at h1
            rw [← h1.1.2] at h2
            rw [cacheGet_set] at h2
            rw [← h1.1.1]
            cases h2
            rfl
    have h5 : Srv.getGroupName env2 c2 gid = (Except.ok (e'.name, c2), 0) := by
      simp [Srv.getGroupName, h2, h3]
    rwa [hname] at h5
  · intro env c gid e' hget
    constructor
    · intro httl
      simp [Srv.getGroupName, hget, httl]
    · intro httl
      rcases hapi : env.getGroupSummary gid with e0 | summary <;>
        simp [Srv.getGroupName, hget, httl, hapi, cacheGet_remove,
          cacheSet_remove]

def wEnvFirst : Env :=
  { adminUserId := "Uadmin", imageViewToken := "",
    xfProto := none, xfHost := none, hostHeader := some "example.test",
    getGroupSummary := fun _ => Except.ok { groupName := some "Alpha" },
    getRoomSummary := fun _ => Except.error "down",
    getMessageContent := fun _ => Except.error "boom",
    replyFail := fun _ => none, pushFail := fun _ => none,
    date := ⟨2024, 0, 15, 10, 30, 0⟩, now := 0 }

/-- Same bot seen 1000 ms later, with the metadata API now failing: a
second resolution must not depend on it. -/
def wEnvSecond : Env :=
  { wEnvFirst with
      getGroupSummary := fun _ => Except.error "api is now down",
      now := 1000 }

def wCacheAfter : NameCache := [("group:G123456", { name := "Alpha", ts := 0 })]

/-- Witness for C6: a first resolution at t=0 fills the cache; a second
resolution at t=1000 (within the TTL) returns the same name with zero API
calls even though the API meanwhile only returns errors. -/
theorem c6_witness :
    Srv.getGroupName wEnvSecond wCacheAfter "G123456"
      = (Except.ok ("Alpha", wCacheAfter), 0) :=
  c6_cache_idempotent.1 wEnvFirst wEnvSecond [] "G123456" "Alpha" wCacheAfter 1
    { name := "Alpha", ts := 0 } rfl rfl (by decide)

/-! ## Claim C10: degenerate sources -/

/-- Claim C10: `getSourceFolder` of `src/server.js` is a total function
(it cannot throw); with an absent source descriptor, a source type outside
user/group/room, or a group/room source whose identifier field is missing
it returns the constant `"unknown"` with an untouched cache and zero
metadata-API calls; for a user source it returns `"private"`, also with no
API call. -/
theorem c10_source_fallback :
    (∀ (env : Env) (c : NameCache) (ev : Event), ev.source = none →
        Srv.getSourceFolder env c ev = ("unknown", c, 0))
    ∧ (∀ (env : Env) (c : NameCache) (ev : Event) (src : Source),
        ev.source = some src →
        src.type ≠ some "user" → src.type ≠ some "group" →
        src.type ≠ some "room" →
        Srv.getSourceFolder env c ev = ("unknown", c, 0))
    ∧ (∀ (env : Env) (c : NameCache) (ev : Event) (src : Source),
        ev.source = some src → src.type = some "group" → src.groupId = none →
        Srv.getSourceFolder env c ev = ("unknown", c, 0))
    ∧ (∀ (env : Env) (c : NameCache) (ev : Event) (src : Source),
        ev.source = some src → src.type = some "room" → src.roomId = none →
        Srv.getSourceFolder env c ev = ("unknown", c, 0))
    ∧ (∀ (env : Env) (c : NameCache) (ev : Event) (src : Source),
        ev.source = some src → src.type = some "user" →
        Srv.getSourceFolder env c ev = ("private", c, 0)) := by
  refine ⟨?_, ?_, ?_, ?_, ?_⟩
  · intro env c ev h
    simp [Srv.getSourceFolder, h, jsTruthy]
  · intro env c ev src h h1 h2 h3
    simp [Srv.getSourceFolder, h, h1, h2, h3]
  · intro env c ev src h h1 h2
    simp [Srv.getSourceFolder, h, h1, h2, jsTruthy]
  · intro env c ev src h h1 h2
    simp [Srv.getSourceFolder, h, h1, h2, jsTruthy]
  · intro env c ev src h h1
    simp [Srv.getSourceFolder, h, h1]

def wEvNoSource : Event := { type := "message" }

def wEvBotSource : Event :=
  { type := "message", source := some { type := some "bot" } }

def wEvGroupNoId : Event :=
  { type := "message", source := some { type := some "group" } }

def wUserSrc : Source := { type := some "user", userId := some "U777" }

def wEvUser : Event := { type := "message", source := some wUserSrc }

/-- Witness for C10, instantiating the absent-source, unknown-type,
missing-group-id and user cases. -/
theorem c10_witness :
    Srv.getSourceFolder wEnvFetchFail [] wEvNoSource = ("unknown", [], 0)
    ∧ Srv.getSourceFolder wEnvFetchFail [] wEvBotSource = ("unknown", [], 0)
    ∧ Srv.getSourceFolder wEnvFetchFail [] wEvGroupNoId = ("unknown", [], 0)
    ∧ Srv.getSourceFolder wEnvFetchFail [] wEvUser = ("private", [], 0) :=
  ⟨c10_source_fallback.1 wEnvFetchFail [] wEvNoSource rfl,
   c10_source_fallback.2.1 wEnvFetchFail [] wEvBotSource { type := some "bot" }
     rfl (by decide) (by decide) (by decide),
   c10_source_fallback.2.2.1 wEnvFetchFail [] wEvGroupNoId
     { type := some "group" } rfl rfl rfl,
   c10_source_fallback.2.2.2.2 wEnvFetchFail [] wEvUser wUserSrc rfl rfl⟩

/-! ## Claim C9: dedup set -/

/-- Claim C9: an image event whose message id is already in
`seenMessageIds` is dropped: the handler leaves the state untouched (no
folder resolution, no cache change, no timer), performs no API call,
writes no file and attempts no outbound send - its only effect is the
duplicate log line.  `rememberMessageId` schedules the deletion of the id
exactly `10 * 60 * 1000` ms after insertion, and firing that timer removes
the id from the set. -/
theorem c9_dedup :
    (∀ (env : Env) (st : BotState) (ev : Event) (m : MessageObj),
        ev.type = "message" → ev.message = some m → m.type = "image" →
        m.id ∈ st.seen →
        Srv.handleEvent env st ev
          = { st := st,
              acts := [Act.log ("⚠️ Duplicate messageId ignored: " ++ m.id)],
              api := 0, err := none })
    ∧ (∀ (id : String) (now : Nat) (st : BotState),
        (rememberMessageId id now st).timers
            = (id, now + 10 * 60 * 1000) :: st.timers
          ∧ ¬ id ∈ (fireTimer id st).seen) := by
  constructor
  · intro env st ev m h1 h2 h3 h4
    simp [Srv.handleEvent, h1, h2, h3, h4]
  · intro id now st
    constructor
    · rfl
    · intro hmem
      rw [fireTimer] at hmem
      simp only [List.mem_filter] at hmem
      simp at hmem

def wStSeen : BotState := { cache := [], seen := ["m1"], timers := [] }

/-- Witness for C9: the image event for already-seen id `"m1"` produces
only the duplicate log, and a remembered id is scheduled for deletion
600000 ms later. -/
theorem c9_witness :
    Srv.handleEvent wEnvFetchFail wStSeen wEvGroupImage
        = { st := wStSeen,
            acts := [Act.log ("⚠️ Duplicate messageId ignored: " ++ "m1")],
            api := 0, err := none }
    ∧ (rememberMessageId "m2" 5 wStEmpty).timers = [("m2", 5 + 10 * 60 * 1000)]
    ∧ ¬ "m2" ∈ (fireTimer "m2" wStSeen).seen :=
  ⟨c9_dedup.1 wEnvFetchFail wStSeen wEvGroupImage { type := "image", id := "m1" }
     rfl rfl rfl (by decide),
   (c9_dedup.2 "m2" 5 wStEmpty).1,
   (c9_dedup.2 "m2" 5 wStSeen).2⟩

/-! ## Claim C2: degrade on lookup failure -/

def wEnvBoom : Env :=
  { adminUserId := "Uadmin", imageViewToken := "",
    xfProto := none, xfHost := none, hostHeader := some "example.test",
    getGroupSummary := fun _ => Except.error "boom",
    getRoomSummary := fun _ => Except.error "boom",
    getMessageContent := fun _ => Except.error "nofetch",
    replyFail := fun _ => none, pushFail := fun _ => none,
    date := ⟨2024, 0, 15, 10, 30, 0⟩, now := 0 }

/-- Claim C2 (counterexample): in the `part_000` variant (cited by the
claim) a failing `getGroupSummary` call **propagates** out of
`getSourceFolder` instead of degrading to an identifier-based folder name:
for a group event with a failing metadata API the resolution raises
`"boom"`. -/
theorem c2_counterexample :
    Variants.getSourceFolder wEnvBoom [] wEvGroupImage
      = Except.error "boom" := rfl

theorem getGroupName_error_api (env : Env) (c : NameCache) (gid e : String)
    (h : (Srv.getGroupName env c gid).1 = Except.error e) :
    (Srv.getGroupName env c gid).2 = 1 := by
  rcases hget : cacheGet c ("group:" ++ gid) with _ | cached
  · rcases hapi : env.getGroupSummary gid with e0 | s <;>
      simp [Srv.getGroupName, hget, hapi] at h ⊢
  · by_cases httl : env.now - cached.ts < CACHE_TTL_MS
    · simp [Srv.getGroupName, hget, httl] at h
    · rcases hapi : env.getGroupSummary gid with e0 | s <;>
        simp [Srv.getGroupName, hget, httl, hapi] at h ⊢

/-- Claim C2 (amended): in the `src/server.js` variant the degrade
behaviour holds - `getSourceFolder` is total (it cannot raise, by type),
a failing group-name lookup degrades to `group_{last-6-of-id}` with the
cache left untouched, and room events never perform a lookup at all,
resolving to `room_{last-6-of-id}`; in the `part_000` family a rejected
metadata call instead propagates out of folder resolution. -/
theorem c2_degrade_on_failure :
    (∀ (env : Env) (c : NameCache) (ev : Event) (src : Source) (gid e : String),
        ev.source = some src → src.type = some "group" →
        src.groupId = some gid → gid ≠ "" →
        (Srv.getGroupName env c gid).1 = Except.error e →
        Srv.getSourceFolder env c ev = ("group_" ++ sliceLast6 gid, c, 1))
    ∧ (∀ (env : Env) (c : NameCache) (ev : Event) (src : Source)
        (rid : String),
        ev.source = some src → src.type = some "room" →
        src.roomId = some rid → rid ≠ "" →
        Srv.getSourceFolder env c ev = ("room_" ++ sliceLast6 rid, c, 0)) := by
  constructor
  · intro env c ev src gid e h h1 h2 h3 h4
    have hk := getGroupName_error_api env c gid e h4
    rcases hg : Srv.getGroupName env c gid with ⟨res, k⟩
    rw [hg] at h4 hk
    simp only at h4 hk
    subst h4
    subst hk
    simp [Srv.getSourceFolder, h, h1, h2, h3, hg, jsTruthy]
  · intro env c ev src rid h h1 h2 h3
    simp [Srv.getSourceFolder, h, h1, h2, h3, jsTruthy]

/-- Witness for C2's amended theorem: with the API rejecting, the group
event resolves to `group_abcdef` (last six characters of
`C0000abcdef`), and a room event to `room_oom987`. -/
theorem c2_witness :
    Srv.getSourceFolder wEnvBoom [] wEvGroupImage = ("group_" ++ sliceLast6 "C0000abcdef", [], 1)
    ∧ Srv.getSourceFolder wEnvBoom []
        { type := "message",
          source := some { type := some "room", roomId := some "Rroom987" } }
        = ("room_" ++ sliceLast6 "Rroom987", [], 0) :=
  ⟨c2_degrade_on_failure.1 wEnvBoom [] wEvGroupImage
     { type := some "group", userId := none, groupId := some "C0000abcdef",
       roomId := none } "C0000abcdef" "boom" rfl rfl rfl (by decide) rfl,
   c2_degrade_on_failure.2 wEnvBoom []
     { type := "message",
       source := some { type := some "room", roomId := some "Rroom987" } }
     { type := some "room", roomId := some "Rroom987" } "Rroom987"
     rfl rfl rfl (by decide)⟩

/-! ## Claim C4: per-event failure isolation -/

theorem webhook_length (env : Env) :
    ∀ (events : List Event) (st : BotState),
      (Srv.webhook env st events).2.length = events.length := by
  intro events
  induction events with
  | nil => intro st; rfl
  | cons ev rest ih =>
    intro st
    simp [Srv.webhook, ih]

/-- Claim C4: every event of a batch contributes exactly one per-event
trace (the trace list has the batch's length, whatever errors occur), and
when the handling of the head event throws, its trace is the attempted
actions followed by the error log and the best-effort administrator error
push, after which the loop continues with the remaining events from the
post-error state. -/
theorem c4_batch_isolation :
    (∀ (env : Env) (st : BotState) (events : List Event),
        (Srv.webhook env st events).2.length = events.length)
    ∧ (∀ (env : Env) (st : BotState) (ev : Event) (rest : List Event)
        (e : String),
        (Srv.handleEvent env st ev).err = some e →
        (Srv.webhook env st (ev :: rest)).2
          = ((Srv.handleEvent env st ev).acts
              ++ [Act.log ("❌ Error: " ++ e),
                  Act.push env.adminUserId ("❌ SavePhotoBot Error: " ++ e)])
            :: (Srv.webhook env (Srv.handleEvent env st ev).st rest).2) := by
  constructor
  · intro env st events
    exact webhook_length env events st
  · intro env st ev rest e h
    simp [Srv.webhook, Srv.processEvent, h]

def wEvTextUser : Event :=
  { type := "message", message := some { type := "text", id := "t1" },
    source := some wUserSrc, replyToken := some "rt9" }

/-- Witness for C4: a batch whose first event's handling throws (the
content fetch fails) still yields one trace per event, and the second
event (a private text message) is still processed. -/
theorem c4_witness :
    (Srv.webhook wEnvFetchFail wStEmpty [wEvGroupImage, wEvTextUser]).2
      = ((Srv.handleEvent wEnvFetchFail wStEmpty wEvGroupImage).acts
          ++ [Act.log ("❌ Error: " ++ "boom"),
              Act.push "Uadmin" ("❌ SavePhotoBot Error: " ++ "boom")])
        :: (Srv.webhook wEnvFetchFail
              (Srv.handleEvent wEnvFetchFail wStEmpty wEvGroupImage).st
              [wEvTextUser]).2 :=
  c4_batch_isolation.2 wEnvFetchFail wStEmpty wEvGroupImage [wEvTextUser]
    "boom" rfl

/-! ## Claim C8: one admin push per saved image -/

/-- Claim C8: for an image event from a group or room source (the
administrator identifier is always configured in both cited variants -
startup aborts without it), once the content stream is fetched and saved
successfully, the handler attempts exactly one push to the administrator
identifier, and that attempt is placed after the completed file write.
This holds both for the `src/server.js` handler and for the webhook
handler of the second script of `src/unnamed/part_002` (lines 419-432,
`notifyAdmin` after save). -/
theorem c8_admin_notify_once :
    (∀ (env : Env) (st : BotState) (ev : Event) (m : MessageObj) (src : Source)
      (s : ContentStream),
      ev.type = "message" → ev.message = some m → m.type = "image" →
      ev.source = some src →
      (src.type = some "group" ∨ src.type = some "room") →
      ¬ m.id ∈ st.seen →
      env.getMessageContent m.id = Except.ok s →
      s.streamError = none →
      env.pushFail env.adminUserId = none →
      ((Srv.handleEvent env st ev).acts.countP (isPushTo env.adminUserId) = 1
        ∧ ((Srv.handleEvent env st ev).acts.takeWhile
              (fun a => !(isPushTo env.adminUserId a))).any isSaveAct = true))
    ∧ (∀ (env : Env) (st : BotState) (ev : Event) (m : MessageObj) (src : Source)
      (s : ContentStream),
      ev.type = "message" → ev.message = some m → m.type = "image" →
      ev.source = some src →
      (src.type = some "group" ∨ src.type = some "room") →
      ¬ m.id ∈ st.seen →
      env.getMessageContent m.id = Except.ok s →
      s.streamError = none →
      env.pushFail env.adminUserId = none →
      ((Var2b.handleEvent env st ev).acts.countP (isPushTo env.adminUserId) = 1
        ∧ ((Var2b.handleEvent env st ev).acts.takeWhile
              (fun a => !(isPushTo env.adminUserId a))).any isSaveAct = true)) := by
  constructor
  · intro env st ev m src s h1 h2 h3 h4 h5 h6 h7 h8 h9
    rcases hsf : Srv.getSourceFolder env (rememberMessageId m.id env.now st).cache ev
      with ⟨f, c2, k⟩
    have hsrc : srcTypeOf ev ≠ some "user" := by
      rcases h5 with h5 | h5 <;> simp [srcTypeOf, h4, h5]
    constructor <;>
      rcases h5 with h5 | h5 <;>
        simp [Srv.handleEvent, h1, h2, h3, h6, h7, h8, h9, hsf,
          saveStreamToFile, srcTypeOf, h4, h5, isPushTo, isSaveAct,
          List.countP_cons, List.takeWhile]
  · intro env st ev m src s h1 h2 h3 h4 h5 h6 h7 h8 h9
    rcases hsf : Var2b.getSourceFolder env (rememberMessageId m.id env.now st).cache ev
      with ⟨f, c2, k⟩
    constructor <;>
      rcases h5 with h5 | h5 <;>
        simp [Var2b.handleEvent, h1, h2, h3, h6, h7, h8, h9, hsf,
          saveStreamToFile, srcTypeOf, h4, h5, isPushTo, isSaveAct,
          List.countP_cons, List.takeWhile]

def wStreamOk : ContentStream :=
  { contentType := some "image/png", content := [9, 9], delivered := 2,
    streamError := none }

def wEnvSave : Env :=
  { wEnvFirst with getMessageContent := fun _ => Except.ok wStreamOk }

/-- Witness for C8: a group image event whose fetch and save succeed
yields exactly one push to the administrator, placed after the completed
file write - in both the `src/server.js` handler and the handler of the
second script of `src/unnamed/part_002`. -/
theorem c8_witness :
    ((Srv.handleEvent wEnvSave wStEmpty wEvGroupImage).acts.countP
        (isPushTo "Uadmin") = 1
      ∧ ((Srv.handleEvent wEnvSave wStEmpty wEvGroupImage).acts.takeWhile
          (fun a => !(isPushTo "Uadmin" a))).any isSaveAct = true)
    ∧ ((Var2b.handleEvent wEnvSave wStEmpty wEvGroupImage).acts.countP
        (isPushTo "Uadmin") = 1
      ∧ ((Var2b.handleEvent wEnvSave wStEmpty wEvGroupImage).acts.takeWhile
          (fun a => !(isPushTo "Uadmin" a))).any isSaveAct = true) :=
  ⟨c8_admin_notify_once.1 wEnvSave wStEmpty wEvGroupImage
    { type := "image", id := "m1" }
    { type := some "group", userId := none, groupId := some "C0000abcdef",
      roomId := none }
    wStreamOk rfl rfl rfl rfl (Or.inl rfl) (by decide) rfl rfl rfl,
   c8_admin_notify_once.2 wEnvSave wStEmpty wEvGroupImage
    { type := "image", id := "m1" }
    { type := some "group", userId := none, groupId := some "C0000abcdef",
      roomId := none }
    wStreamOk rfl rfl rfl rfl (Or.inl rfl) (by decide) rfl rfl rfl⟩

/-! ## Claim C1: group/room silence -/

/-- The shape every attempted send of the `src/server.js` handler has:
replies are issued only for user-source events, and pushes only target the
configured administrator identifier. -/
def replyUserPushAdmin (env : Env) (ev : Event) : Act → Bool
  | Act.reply _ _ => srcTypeOf ev == some "user"
  | Act.push dst _ => dst == env.adminUserId
  | _ => true

theorem handleEvent_sends_ok (env : Env) (st : BotState) (ev : Event) :
    (Srv.handleEvent env st ev).acts.all (replyUserPushAdmin env ev) = true := by
  by_cases h1 : ev.type = "follow"
  · by_cases h2 : srcTypeOf ev = some "user" ∧ jsTruthy ev.replyToken = true
    · simp [Srv.handleEvent, h1, h2, replyUserPushAdmin, h2.1]
    · simp [Srv.handleEvent, h1, h2]
  · by_cases h2 : ev.type = "join"
    · simp [Srv.handleEvent, h1, h2]
    · by_cases h3 : ev.type = "message" ∧ ev.message.map (fun m => m.type) = some "text"
      · by_cases h4 : srcTypeOf ev = some "user" ∧ jsTruthy ev.replyToken = true
        · simp [Srv.handleEvent, h1, h2, h3, h4, replyUserPushAdmin, h4.1]
        · simp [Srv.handleEvent, h1, h2, h3, h4]
      · by_cases h5 : ev.type = "message" ∧ ev.message.map (fun m => m.type) = some "image"
        · by_cases h6 : (ev.message.map (fun m => m.id)).getD "" ∈ st.seen
          · simp [Srv.handleEvent, h1, h2, h3, h5, h6, replyUserPushAdmin]
          · rcases hsf : Srv.getSourceFolder env
                (rememberMessageId ((ev.message.map (fun m => m.id)).getD "")
                  env.now st).cache ev with ⟨f, c2, k⟩
            rcases hgc : env.getMessageContent
                ((ev.message.map (fun m => m.id)).getD "") with e | stream
            · simp [Srv.handleEvent, h1, h2, h3, h5, h6, hsf, hgc]
            · rcases hsv : saveStreamToFile stream with e | u
              · simp [Srv.handleEvent, h1, h2, h3, h5, h6, hsf, hgc, hsv]
              · rcases hp : env.pushFail env.adminUserId with _ | e
                · by_cases h7 : srcTypeOf ev = some "user"
                      ∧ jsTruthy ev.replyToken = true
                  · simp [Srv.handleEvent, h1, h2, h3, h5, h6, hsf, hgc, hsv,
                      hp, h7, replyUserPushAdmin, h7.1]
                  · simp [Srv.handleEvent, h1, h2, h3, h5, h6, hsf, hgc, hsv,
                      hp, h7, replyUserPushAdmin]
                · simp [Srv.handleEvent, h1, h2, h3, h5, h6, hsf, hgc, hsv,
                    hp, replyUserPushAdmin]
        · simp only [Srv.handleEvent]
          rw [if_neg h1, if_neg h2, if_neg h3, if_neg h5]
          rfl

theorem sends_false_of_ok (env : Env) (ev : Event) (a : Act)
    (h : replyUserPushAdmin env ev a = true)
    (h1 : ev.source.bind (fun s => s.groupId) ≠ some env.adminUserId)
    (h2 : ev.source.bind (fun s => s.roomId) ≠ some env.adminUserId) :
    sendsToGroupOrRoom ev a = false := by
  cases a with
  | reply tok t =>
    simp only [replyUserPushAdmin, beq_iff_eq] at h
    simp [sendsToGroupOrRoom, h]
  | push dst t =>
    simp only [replyUserPushAdmin, beq_iff_eq] at h
    subst h
    simp [sendsToGroupOrRoom]
    exact ⟨h1, h2⟩
  | saveFile f fn b => rfl
  | log m => rfl

/-- Claim C1 (amended): in the `src/server.js` variant no outbound message
is ever addressed to a group or room conversation - for any event, state
and environment, every attempted send of the per-event processing
(including the catch-path error notification) is either a reply to a
user-source event or a push to the administrator identifier, which (being
a user identifier) differs from the event's group/room ids. -/
theorem c1_group_room_silence :
    ∀ (env : Env) (st : BotState) (ev : Event),
      ev.source.bind (fun s => s.groupId) ≠ some env.adminUserId →
      ev.source.bind (fun s => s.roomId) ≠ some env.adminUserId →
      ((Srv.processEvent env st ev).2.1.all
          (fun a => !(sendsToGroupOrRoom ev a))) = true := by
  intro env st ev h1 h2
  have hall := handleEvent_sends_ok env st ev
  rw [List.all_eq_true] at hall
  rw [List.all_eq_true]
  intro a ha
  rcases herr : (Srv.handleEvent env st ev).err with _ | e
  · simp only [Srv.processEvent, herr] at ha
    simp [sends_false_of_ok env ev a (hall a ha) h1 h2]
  · simp only [Srv.processEvent, herr, List.mem_append, List.mem_cons,
      List.mem_singleton, List.not_mem_nil, or_false] at ha
    rcases ha with ha | ha | ha
    · simp [sends_false_of_ok env ev a (hall a ha) h1 h2]
    · subst ha; rfl
    · subst ha
      simp [sendsToGroupOrRoom]
      exact ⟨h1, h2⟩

/-- Claim C1 (counterexample): in the first script of
`src/unnamed/part_002`, a group image event with a reply token and no
sender user id triggers sends addressed to the group conversation: the
immediate "saving..." reply goes to the group's reply token and the
post-save confirmation push targets the group identifier itself. -/
theorem c1_counterexample :
    ((Var2a.processEvent wEnvSave [] wEvGroupImage).2.any
        (sendsToGroupOrRoom wEvGroupImage)) = true := by decide

/-- Witness for C1's amended theorem: the same group image event handled
by `src/server.js` produces no send addressed to the group. -/
theorem c1_witness :
    ((Srv.processEvent wEnvSave wStEmpty wEvGroupImage).2.1.all
        (fun a => !(sendsToGroupOrRoom wEvGroupImage a))) = true :=
  c1_group_room_silence wEnvSave wStEmpty wEvGroupImage (by decide) (by decide)
